import Mathlib

/-!
Shallow embedding of the 7Semi_AD849x thermocouple-amplifier driver
(src/7Semi_AD849x.h, src/7Semi_AD849x.cpp).

Modelling conventions:
* `float` arithmetic is embedded as exact rational arithmetic (`ℚ`); the
  spec states its formulas exactly, and no claim depends on rounding.
* The `NAN` sentinel held in `filtered_temperature` is embedded as
  `Option ℚ` with `none` playing the role of NaN; the `isnan` test
  becomes a match on the option.
* The platform collaborator `analogRead` is embedded as a sample stream
  `f : Nat → Nat`, where `f i` is the value returned by the i-th
  `analogRead` call performed inside one acquisition.  Claims that fix
  the underlying signal use a constant stream.
* The `uint32_t` accumulator of `readRaw` wraps modulo 2^32; the
  embedding keeps the `% 2^32` explicit.
* C++ methods that return a value and write no member are embedded as
  functions returning `value × Sensor` with the state passed through
  unchanged, so that purity ("no side effects") is a statable property
  of the embedding; `void` methods return the updated `Sensor`.
-/

namespace AD849x_7Semi

/-- State of one `AD849x_7Semi` object: the private members of the C++
class (header lines 192-211). -/
structure Sensor where
  analog_pin : Nat
  reference_voltage : ℚ
  resolution : Nat
  offset_voltage : ℚ
  sensitivity : ℚ
  offset : ℚ
  gain : ℚ
  filtered_temperature : Option ℚ
  avg_sample : Nat
  deriving DecidableEq

/-- A freshly constructed object.  The constructor body is empty; the
in-class member initializers set `offset_voltage = 1.25`,
`sensitivity = 0.005` and `avg_sample = 10`, and every other member is
left indeterminate — the indeterminate members are parameters here. -/
def mkSensor (pin : Nat) (vref : ℚ) (res : Nat) (off g : ℚ)
    (ft : Option ℚ) : Sensor :=
  { analog_pin := pin
    reference_voltage := vref
    resolution := res
    offset_voltage := 1.25
    sensitivity := 0.005
    offset := off
    gain := g
    filtered_temperature := ft
    avg_sample := 10 }

/-- `begin(analogPin, vRef, adcResolution)` (cpp lines 39-68): stores
the three parameters, resets `offset = 0`, `gain = 1`,
`filtered_temperature = NAN`, `avg_sample = 10`.  The `pinMode` call is
an external side effect with no state in the model. -/
def begin (s : Sensor) (analogPin : Nat) (vRef : ℚ)
    (adcResolution : Nat) : Sensor :=
  { s with
    analog_pin := analogPin
    reference_voltage := vRef
    resolution := adcResolution
    offset := 0
    gain := 1
    filtered_temperature := none
    avg_sample := 10 }

/-- `setVref(vRef)` (cpp lines 71-78). -/
def setVref (s : Sensor) (vRef : ℚ) : Sensor :=
  { s with reference_voltage := vRef }

/-- `setADCResolution(adcResolution)` (cpp lines 80-89): unconditional
overwrite, no validation. -/
def setADCResolution (s : Sensor) (adcResolution : Nat) : Sensor :=
  { s with resolution := adcResolution }

/-- `setOffsetVoltage(offset)` (cpp lines 91-100). -/
def setOffsetVoltage (s : Sensor) (off : ℚ) : Sensor :=
  { s with offset_voltage := off }

/-- `setSensitivity(voltsPerDegC)` (cpp lines 102-110): unconditional
overwrite, no validation. -/
def setSensitivity (s : Sensor) (voltsPerDegC : ℚ) : Sensor :=
  { s with sensitivity := voltsPerDegC }

/-- `setSampling(samples)` (cpp lines 112-124): `samples` is a
`uint8_t`, so its faithful domain is `[0, 255]`; `0` becomes `1`,
values above `200` become `200`. -/
def setSampling (s : Sensor) (samples : Nat) : Sensor :=
  { s with avg_sample :=
      if samples = 0 then 1 else if 200 < samples then 200 else samples }

/-- `getSampling()` (cpp lines 126-132). -/
def getSampling (s : Sensor) : Nat :=
  s.avg_sample

/-- The list of raw samples one `readRaw()` call consumes from the
platform stream `f`: exactly `avg_sample` sequential reads. -/
def rawSamples (s : Sensor) (f : Nat → Nat) : List Nat :=
  (List.range s.avg_sample).map f

/-- `readRaw()` (cpp lines 135-150): sums `avg_sample` readings into a
`uint32_t` accumulator (wrap-around kept as `% 2^32`) and returns the
truncated integer mean `value / avg_sample`. -/
def readRaw (s : Sensor) (f : Nat → Nat) : Nat :=
  ((rawSamples s f).sum % 2 ^ 32) / s.avg_sample

/-- `rawToVoltage(raw)` (cpp lines 152-162): `(raw * Vref) /
resolution`.  The method writes no member, so the state is returned
unchanged. -/
def rawToVoltage (s : Sensor) (raw : ℤ) : ℚ × Sensor :=
  ((raw * s.reference_voltage) / s.resolution, s)

/-- `readVoltage()` (cpp lines 164-170). -/
def readVoltage (s : Sensor) (f : Nat → Nat) : ℚ :=
  (rawToVoltage s (readRaw s f)).1

/-- `voltageToCelsius(voltage)` (cpp lines 173-190):
`temp = (voltage - offset_voltage) / sensitivity`, then
`temp = temp * gain + offset`.  Writes no member. -/
def voltageToCelsius (s : Sensor) (voltage : ℚ) : ℚ × Sensor :=
  ((voltage - s.offset_voltage) / s.sensitivity * s.gain + s.offset, s)

/-- `readCelsius()` (cpp lines 192-198). -/
def readCelsius (s : Sensor) (f : Nat → Nat) : ℚ :=
  (voltageToCelsius s (readVoltage s f)).1

/-- `readFahrenheit()` (cpp lines 200-207): `(°C * 9.0 / 5.0) + 32.0`. -/
def readFahrenheit (s : Sensor) (f : Nat → Nat) : ℚ :=
  readCelsius s f * 9 / 5 + 32

/-- `readKelvin()` (cpp lines 209-216): `°C + 273.15`. -/
def readKelvin (s : Sensor) (f : Nat → Nat) : ℚ :=
  readCelsius s f + 273.15

/-- `calibrate(actualTempC)` (cpp lines 219-233):
`measured = readCelsius(); offset = actualTempC - measured`. -/
def calibrate (s : Sensor) (actualTempC : ℚ) (f : Nat → Nat) : Sensor :=
  { s with offset := actualTempC - readCelsius s f }

/-- `readFilteredTemperatureC(alpha)` (cpp lines 236-260): reads the
current temperature; if the filter state is NaN it is set to the
current reading; then the exponential-average update is applied
unconditionally and the updated state is returned. -/
def readFilteredTemperatureC (s : Sensor) (alpha : ℚ)
    (f : Nat → Nat) : ℚ × Sensor :=
  let current := readCelsius s f
  let prev : ℚ :=
    match s.filtered_temperature with
    | none => current
    | some x => x
  let updated := alpha * current + (1 - alpha) * prev
  (updated, { s with filtered_temperature := some updated })

/-- `FaultDetect()` (cpp lines 263-283): reads a fresh voltage and
returns the 0/1 flag of `v > 0.1 && v < reference_voltage - 0.1`. -/
def FaultDetect (s : Sensor) (f : Nat → Nat) : Nat :=
  let v := readVoltage s f
  if 0.1 < v ∧ v < s.reference_voltage - 0.1 then 1 else 0

/-- The state invariants claimed by the spec (§3):
`maxCount > 0`, `sensitivity ≠ 0`, `1 ≤ sampleCount ≤ 200`. -/
def Inv (s : Sensor) : Prop :=
  0 < s.resolution ∧ s.sensitivity ≠ 0 ∧
    1 ≤ s.avg_sample ∧ s.avg_sample ≤ 200

instance (s : Sensor) : Decidable (Inv s) := by
  unfold Inv; infer_instance

/-- A constant ADC signal: every `analogRead` call returns `r`.  Used to
model an unchanged underlying signal between acquisitions. -/
def constSignal (r : Nat) : Nat → Nat := fun _ => r

/-- A freshly constructed object with all indeterminate members taken as
zero (any junk values would do for the concrete instances below). -/
def sensor0 : Sensor := mkSensor 0 0 0 0 0 none

/-- A sensor state with a nonzero prior calibration offset (`offset = 5`),
otherwise the documented defaults, reading a 5 V / 1000-count ADC. -/
def calState : Sensor :=
  { analog_pin := 0, reference_voltage := 5, resolution := 1000,
    offset_voltage := 1.25, sensitivity := 0.005, offset := 5, gain := 1,
    filtered_temperature := none, avg_sample := 10 }

/-- A sensor state whose filter is still uninitialized (NaN). -/
def sFiltNone : Sensor :=
  { analog_pin := 0, reference_voltage := 5, resolution := 1000,
    offset_voltage := 1.25, sensitivity := 0.005, offset := 0, gain := 1,
    filtered_temperature := none, avg_sample := 10 }

/-- The same sensor state with the filter already holding 20 °C. -/
def sFiltSome : Sensor :=
  { sFiltNone with filtered_temperature := some 20 }

end AD849x_7Semi

namespace AD849x_7Semi

/-- C1: the claim says `calibrate(actualTempC)` followed by
`readCelsius()` on the same unchanged signal returns `actualTempC` for
every prior state.  The code computes `offset = actualTempC - measured`
where `measured` already contains the prior offset, so a subsequent
read returns `actualTempC - priorOffset`: with a prior calibration
offset of 5 (uncalibrated base reading 250, measured 255),
`calibrate(100)` leads to a subsequent reading of 95, not 100. -/
theorem C1_calibrate_offset_bug :
    (∀ (s : Sensor) (t : ℚ) (f : Nat → Nat),
      readCelsius (calibrate s t f) f = t - s.offset) ∧
    calState.offset = 5 ∧
    readCelsius calState (constSignal 500) = 255 ∧
    readCelsius (calibrate calState 100 (constSignal 500)) (constSignal 500) = 95 ∧
    (95 : ℚ) ≠ 100 := by
  refine ⟨?_, rfl, ?_, ?_, by norm_num⟩
  · intro s t f
    simp only [readCelsius, calibrate, voltageToCelsius, readVoltage,
      rawToVoltage, readRaw, rawSamples]
    ring
  · norm_num [readCelsius, readVoltage, readRaw, rawSamples, rawToVoltage,
      voltageToCelsius, calState, constSignal, List.range_succ]
  · norm_num [readCelsius, readVoltage, readRaw, rawSamples, rawToVoltage,
      voltageToCelsius, calibrate, calState, constSignal, List.range_succ]

/-- C2 (amended): from any state satisfying the invariants, every public
operation preserves them provided `setADCResolution` is given a positive
count and `setSensitivity` a nonzero sensitivity (the setters store
unconditionally and validate nothing); the sampling-count invariant
`1 ≤ sampleCount ≤ 200` is preserved unconditionally, and `begin` with a
positive resolution re-establishes the invariants. -/
theorem C2_invariant_preservation (s : Sensor) (h : Inv s) :
    (∀ v, Inv (setVref s v)) ∧
    (∀ r, 0 < r → Inv (setADCResolution s r)) ∧
    (∀ v, Inv (setOffsetVoltage s v)) ∧
    (∀ v, v ≠ 0 → Inv (setSensitivity s v)) ∧
    (∀ n, Inv (setSampling s n)) ∧
    (∀ p v r, 0 < r → Inv (begin s p v r)) ∧
    (∀ t f, Inv (calibrate s t f)) ∧
    (∀ a f, Inv (readFilteredTemperatureC s a f).2) ∧
    (∀ raw, Inv (rawToVoltage s raw).2) ∧
    (∀ v, Inv (voltageToCelsius s v).2) := by
  obtain ⟨h1, h2, h3, h4⟩ := h
  have hs : ∀ n : Nat, 1 ≤ (setSampling s n).avg_sample ∧
      (setSampling s n).avg_sample ≤ 200 := by
    intro n
    simp only [setSampling]
    constructor <;> split_ifs <;> omega
  exact ⟨fun v => ⟨h1, h2, h3, h4⟩,
    fun r hr => ⟨hr, h2, h3, h4⟩,
    fun v => ⟨h1, h2, h3, h4⟩,
    fun v hv => ⟨h1, hv, h3, h4⟩,
    fun n => ⟨h1, h2, (hs n).1, (hs n).2⟩,
    fun p v r hr => ⟨hr, h2, by norm_num [begin], by norm_num [begin]⟩,
    fun t f => ⟨h1, h2, h3, h4⟩,
    fun a f => ⟨h1, h2, h3, h4⟩,
    fun raw => ⟨h1, h2, h3, h4⟩,
    fun v => ⟨h1, h2, h3, h4⟩⟩

/-- C2 counterexample: a properly initialized state satisfies the
invariants, yet the public operation `setSensitivity 0` produces a state
violating `sensitivity ≠ 0` — so not every public operation preserves
the invariants as the claim states. -/
theorem C2_counterexample :
    Inv (begin sensor0 0 3.3 4095) ∧
    ¬ Inv (setSensitivity (begin sensor0 0 3.3 4095) 0) := by
  constructor
  · refine ⟨by decide, ?_, by decide, by decide⟩
    norm_num [begin, sensor0, mkSensor]
  · intro h
    exact h.2.1 rfl

/-- C2 witness: the preservation theorem applied at a concrete
initialized state, for `setVref 5` and `setSampling 250`. -/
theorem C2_witness :
    Inv (setVref (begin sensor0 0 3.3 4095) 5) ∧
    Inv (setSampling (begin sensor0 0 3.3 4095) 250) := by
  have h : Inv (begin sensor0 0 3.3 4095) := by
    refine ⟨by decide, ?_, by decide, by decide⟩
    norm_num [begin, sensor0, mkSensor]
  exact ⟨(C2_invariant_preservation _ h).1 5,
    (C2_invariant_preservation _ h).2.2.2.2.1 250⟩

/-- C3: `voltageToCelsius` computes exactly
`((v - offsetVoltage) / sensitivity) * gain + offset`, leaves the state
unchanged, and after `begin` the calibration defaults are `gain = 1`
and `offset = 0`. -/
theorem C3_voltageToCelsius_formula (s : Sensor) (v : ℚ)
    (s0 : Sensor) (p : Nat) (vr : ℚ) (r : Nat) :
    (voltageToCelsius s v).1 =
      (v - s.offset_voltage) / s.sensitivity * s.gain + s.offset ∧
    (voltageToCelsius s v).2 = s ∧
    (begin s0 p vr r).gain = 1 ∧ (begin s0 p vr r).offset = 0 :=
  ⟨rfl, rfl, rfl, rfl⟩

/-- C4: when the filter state is unset, `readFilteredTemperatureC`
returns exactly the current reading and persists it (the blend
`a*c + (1-a)*c` collapses to `c`); when the filter state holds `F`, it
returns `alpha*current + (1-alpha)*F` and persists that value. -/
theorem C4_filter_update (s : Sensor) (a : ℚ) (f : Nat → Nat) :
    (s.filtered_temperature = none →
      (readFilteredTemperatureC s a f).1 = readCelsius s f ∧
      (readFilteredTemperatureC s a f).2.filtered_temperature =
        some (readCelsius s f)) ∧
    ∀ F, s.filtered_temperature = some F →
      (readFilteredTemperatureC s a f).1 =
        a * readCelsius s f + (1 - a) * F ∧
      (readFilteredTemperatureC s a f).2.filtered_temperature =
        some (a * readCelsius s f + (1 - a) * F) := by
  constructor
  · intro h
    have hc : a * readCelsius s f + (1 - a) * readCelsius s f
        = readCelsius s f := by ring
    simp [readFilteredTemperatureC, h, hc]
  · intro F h
    simp [readFilteredTemperatureC, h]

/-- C4 witness: the filter theorem applied at concrete states with the
filter unset and with the filter holding 20 °C, at `alpha = 0.1` on a
constant signal. -/
theorem C4_witness :
    ((readFilteredTemperatureC sFiltNone 0.1 (constSignal 500)).1 =
      readCelsius sFiltNone (constSignal 500) ∧
     (readFilteredTemperatureC sFiltNone 0.1 (constSignal 500)).2.filtered_temperature =
      some (readCelsius sFiltNone (constSignal 500))) ∧
    ((readFilteredTemperatureC sFiltSome 0.1 (constSignal 500)).1 =
      0.1 * readCelsius sFiltSome (constSignal 500) + (1 - 0.1) * 20 ∧
     (readFilteredTemperatureC sFiltSome 0.1 (constSignal 500)).2.filtered_temperature =
      some (0.1 * readCelsius sFiltSome (constSignal 500) + (1 - 0.1) * 20)) :=
  ⟨(C4_filter_update sFiltNone 0.1 (constSignal 500)).1 rfl,
   (C4_filter_update sFiltSome 0.1 (constSignal 500)).2 20 rfl⟩

/-- C5: for every argument in the `uint8_t` domain, `setSampling` stores
the clamp of `n` to `[1, 200]` (`0 ↦ 1`, `n > 200 ↦ 200`, in-range `n`
unchanged), and `getSampling` returns the stored value; the operation is
total — out-of-range input is never surfaced as an error. -/
theorem C5_setSampling_clamps (s : Sensor) (n : Nat) (h : n ≤ 255) :
    (setSampling s n).avg_sample = max 1 (min n 200) ∧
    (n = 0 → (setSampling s n).avg_sample = 1) ∧
    (200 < n → (setSampling s n).avg_sample = 200) ∧
    (1 ≤ n → n ≤ 200 → (setSampling s n).avg_sample = n) ∧
    getSampling (setSampling s n) = (setSampling s n).avg_sample := by
  have key : (setSampling s n).avg_sample =
      if n = 0 then 1 else if 200 < n then 200 else n := rfl
  refine ⟨?_, fun h0 => ?_, fun h200 => ?_, fun hl hr => ?_, rfl⟩ <;>
    rw [key] <;> split_ifs <;> omega

/-- C5 witness: the clamping theorem applied at the spec's three sample
inputs 250, 0 and 50. -/
theorem C5_witness :
    (250 ≤ 255 ∧ (setSampling sensor0 250).avg_sample = 200) ∧
    (0 ≤ 255 ∧ (setSampling sensor0 0).avg_sample = 1) ∧
    (50 ≤ 255 ∧ (setSampling sensor0 50).avg_sample = 50) :=
  ⟨⟨by omega, (C5_setSampling_clamps sensor0 250 (by omega)).2.2.1 (by omega)⟩,
   ⟨by omega, (C5_setSampling_clamps sensor0 0 (by omega)).2.1 rfl⟩,
   ⟨by omega, (C5_setSampling_clamps sensor0 50 (by omega)).2.2.2.1 (by omega) (by omega)⟩⟩

/-- C6: `readRaw` consumes exactly `sampleCount` sequential raw reads;
for samples bounded by a platform maximum `M ≤ 65535` the 32-bit
accumulator cannot wrap, the result is the truncated integer mean
`sum / sampleCount`, and it lies in `[0, M]`. -/
theorem C6_readRaw_average (s : Sensor) (f : Nat → Nat) (M : Nat)
    (h1 : 1 ≤ s.avg_sample) (h2 : s.avg_sample ≤ 200)
    (hM : M ≤ 65535) (hf : ∀ i, f i ≤ M) :
    (rawSamples s f).length = s.avg_sample ∧
    (rawSamples s f).sum < 2 ^ 32 ∧
    readRaw s f = (rawSamples s f).sum / s.avg_sample ∧
    readRaw s f ≤ M := by
  have hlen : (rawSamples s f).length = s.avg_sample := by
    simp [rawSamples]
  have hsum : (rawSamples s f).sum ≤ s.avg_sample * M := by
    have hb : ∀ x ∈ rawSamples s f, x ≤ M := by
      intro x hx
      simp only [rawSamples, List.mem_map] at hx
      obtain ⟨i, _, rfl⟩ := hx
      exact hf i
    have := List.sum_le_card_nsmul (rawSamples s f) M hb
    simpa [hlen, smul_eq_mul, Nat.mul_comm] using this
  have hlt : (rawSamples s f).sum < 2 ^ 32 := by
    calc (rawSamples s f).sum ≤ s.avg_sample * M := hsum
      _ ≤ 200 * 65535 := Nat.mul_le_mul h2 hM
      _ < 2 ^ 32 := by norm_num
  have hmod : readRaw s f = (rawSamples s f).sum / s.avg_sample := by
    rw [readRaw, Nat.mod_eq_of_lt hlt]
  refine ⟨hlen, hlt, hmod, ?_⟩
  rw [hmod]
  calc (rawSamples s f).sum / s.avg_sample
      ≤ s.avg_sample * M / s.avg_sample := Nat.div_le_div_right hsum
    _ = M := Nat.mul_div_cancel_left M (by omega)

/-- C6 witness: the averaging theorem applied at an initialized state
(10 samples) on a constant signal of 1000 with platform maximum 4095. -/
theorem C6_witness :
    (1 ≤ (begin sensor0 0 3.3 4095).avg_sample ∧
     (begin sensor0 0 3.3 4095).avg_sample ≤ 200 ∧
     (∀ i, constSignal 1000 i ≤ 4095)) ∧
    (rawSamples (begin sensor0 0 3.3 4095) (constSignal 1000)).length =
      (begin sensor0 0 3.3 4095).avg_sample ∧
    readRaw (begin sensor0 0 3.3 4095) (constSignal 1000) =
      (rawSamples (begin sensor0 0 3.3 4095) (constSignal 1000)).sum /
        (begin sensor0 0 3.3 4095).avg_sample ∧
    readRaw (begin sensor0 0 3.3 4095) (constSignal 1000) ≤ 4095 := by
  have h := C6_readRaw_average (begin sensor0 0 3.3 4095) (constSignal 1000)
    4095 (by decide) (by decide) (by decide) (fun _ => by norm_num [constSignal])
  exact ⟨⟨by decide, by decide, fun _ => by norm_num [constSignal]⟩,
    h.1, h.2.2.1, h.2.2.2⟩

/-- C7: `FaultDetect` is a 0/1 flag that is 1 exactly when the freshly
acquired voltage lies strictly inside `(0.1, referenceVoltage - 0.1)`;
with `referenceVoltage = 3.3` it returns 1 at `v = referenceVoltage/2`
and 0 at `v = 0.05` and at `v = referenceVoltage - 0.02` (the raw
signals below produce exactly those voltages). -/
theorem C7_faultDetect_window :
    (∀ (s : Sensor) (f : Nat → Nat),
      (FaultDetect s f = 1 ∨ FaultDetect s f = 0) ∧
      (FaultDetect s f = 1 ↔
        0.1 < readVoltage s f ∧
          readVoltage s f < s.reference_voltage - 0.1)) ∧
    readVoltage (begin sensor0 0 3.3 2) (constSignal 1) = 3.3 / 2 ∧
    FaultDetect (begin sensor0 0 3.3 2) (constSignal 1) = 1 ∧
    readVoltage (begin sensor0 0 3.3 66) (constSignal 1) = 0.05 ∧
    FaultDetect (begin sensor0 0 3.3 66) (constSignal 1) = 0 ∧
    readVoltage (begin sensor0 0 3.3 165) (constSignal 164) = 3.3 - 0.02 ∧
    FaultDetect (begin sensor0 0 3.3 165) (constSignal 164) = 0 := by
  refine ⟨fun s f => ⟨?_, ?_⟩, ?_, ?_, ?_, ?_, ?_, ?_⟩
  · simp only [FaultDetect]
    split_ifs <;> simp
  · simp only [FaultDetect]
    split_ifs with hv <;> simp [hv]
  all_goals
    norm_num [FaultDetect, readVoltage, readRaw, rawSamples, rawToVoltage,
      begin, sensor0, mkSensor, constSignal, List.range_succ]

/-- C8: `rawToVoltage` computes exactly
`raw * referenceVoltage / maxCount`, leaves the state unchanged, maps
0 to 0, and (for positive `maxCount`) maps `maxCount` to the reference
voltage. -/
theorem C8_rawToVoltage_formula (s : Sensor) (raw : ℤ) :
    (rawToVoltage s raw).1 = raw * s.reference_voltage / s.resolution ∧
    (rawToVoltage s raw).2 = s ∧
    (rawToVoltage s 0).1 = 0 ∧
    (0 < s.resolution →
      (rawToVoltage s (s.resolution : ℤ)).1 = s.reference_voltage) := by
  refine ⟨rfl, rfl, by simp [rawToVoltage], fun h => ?_⟩
  have hres : (s.resolution : ℚ) ≠ 0 := by
    exact_mod_cast Nat.pos_iff_ne_zero.mp h
  simp only [rawToVoltage]
  push_cast
  field_simp

/-- C8 witness: the endpoint identity applied at an initialized state
with `maxCount = 4095` and `referenceVoltage = 3.3`. -/
theorem C8_witness :
    0 < (begin sensor0 0 3.3 4095).resolution ∧
    (rawToVoltage (begin sensor0 0 3.3 4095)
      ((begin sensor0 0 3.3 4095).resolution : ℤ)).1 =
      (begin sensor0 0 3.3 4095).reference_voltage :=
  ⟨by decide,
   (C8_rawToVoltage_formula (begin sensor0 0 3.3 4095) 0).2.2.2 (by decide)⟩

/-- C9: on the same sample stream (fixed underlying signal),
`readFahrenheit = readCelsius * 9/5 + 32` and
`readKelvin = readCelsius + 273.15` hold exactly. -/
theorem C9_unit_conversions (s : Sensor) (f : Nat → Nat) :
    readFahrenheit s f = readCelsius s f * 9 / 5 + 32 ∧
    readKelvin s f = readCelsius s f + 273.15 :=
  ⟨rfl, rfl⟩

/-- C10: `begin` leaves `offset_voltage` and `sensitivity` untouched
while resetting `offset`, `gain`, `filtered_temperature` and
`avg_sample`; the construction defaults 1.25 V and 0.005 V/°C survive
initialization, and values set before a re-initialization survive it. -/
theorem C10_begin_frame (s : Sensor) (p : Nat) (v : ℚ) (r : Nat) (a b : ℚ)
    (pin0 : Nat) (vr0 : ℚ) (r0 : Nat) (o0 g0 : ℚ) (ft0 : Option ℚ) :
    (begin s p v r).offset_voltage = s.offset_voltage ∧
    (begin s p v r).sensitivity = s.sensitivity ∧
    (begin s p v r).offset = 0 ∧
    (begin s p v r).gain = 1 ∧
    (begin s p v r).filtered_temperature = none ∧
    (begin s p v r).avg_sample = 10 ∧
    (begin (mkSensor pin0 vr0 r0 o0 g0 ft0) p v r).offset_voltage = 1.25 ∧
    (begin (mkSensor pin0 vr0 r0 o0 g0 ft0) p v r).sensitivity = 0.005 ∧
    (begin (setOffsetVoltage s a) p v r).offset_voltage = a ∧
    (begin (setSensitivity s b) p v r).sensitivity = b :=
  ⟨rfl, rfl, rfl, rfl, rfl, rfl, rfl, rfl, rfl, rfl⟩

end AD849x_7Semi
